import Mathlib

set_option maxRecDepth 10000

/-!
Verification development for the torrent-manager backend
(`src/backend/server.py`).

The Python module is embedded shallowly:

* Python dicts keyed by strings (`torrent_handles`, `download_stats`) become
  association lists `List (κ × α)` with first-match lookup; assignment
  replaces the first entry with the key in place (or appends), deletion
  filters the key out.  Reachable Python states never hold a duplicate key,
  so these operations agree with dict semantics there.
* The Mongo collection `db.torrents` becomes `List TorrentRec`;
  `update_one` rewrites the first record matching the id filter and
  `delete_one` removes it.
* The libtorrent session is the map handle to paused-flag
  (`sessionTorrents`); per-handle speed limits and reannounces are not read
  by any claim and are not tracked.
* Floats (progress, rates) become rationals; datetimes become integer
  timestamps (`now` is passed in where the code calls `datetime.utcnow()`).
* Fallible foreign calls are oracles: `Engine.valid`/`Engine.status` stand
  for `handle.is_valid()`/`handle.status()`, an `updFails` oracle marks the
  ids whose `db.torrents.update_one` raises, a `sendOk` oracle marks the
  websockets whose `send_text` succeeds, and `parseOk`/`engineOk` stand for
  `lt.torrent_info` parsing and `ses.add_torrent` succeeding.
* `HTTPException(status_code=c)` becomes `Except.error c`; detail strings
  are not modelled.
-/

/-- Raw libtorrent state enum (`status.state`); the code compares it against
`lt.torrent_status.checking_files`, `downloading_metadata` and
`queued_for_checking` and otherwise only stores `str(status.state)`. -/
inductive LtState where
  | queued_for_checking
  | checking_files
  | downloading_metadata
  | downloading
  | finished
  | seeding
  | allocating
  deriving DecidableEq, Repr

/-- One engine snapshot, the fields of `handle.status()` that the code
reads.  `error` is a string, empty meaning no error (Python truthiness of
`status.error`). -/
structure EngineStatus where
  progress : ℚ
  download_rate : ℚ
  upload_rate : ℚ
  state : LtState
  total_download : ℚ
  total_upload : ℚ
  num_peers : ℤ
  num_seeds : ℤ
  error : String
  is_seeding : Bool
  paused : Bool
  total_wanted : ℚ
  deriving DecidableEq, Repr

/-- The external libtorrent engine: validity and status of each handle
(handles are modelled as naturals). -/
structure Engine where
  valid : Nat → Bool
  status : Nat → EngineStatus

/-- The per-torrent stats dict built in `monitor_torrents` (lines 125-135)
together with the `eta` key added at lines 144-149; this is the value stored
in `download_stats[torrent_id]` and broadcast to websockets. -/
structure TStats where
  progress : ℚ
  download_rate : ℚ
  upload_rate : ℚ
  state : LtState
  total_download : ℚ
  total_upload : ℚ
  num_peers : ℤ
  num_seeds : ℤ
  error : Option String
  eta : String
  deriving DecidableEq, Repr

/-- A durable document of the `db.torrents` collection: the `TorrentInfo`
model fields plus the `num_peers`/`num_seeds`/`error` fields that the
monitor update adds via `$set` (absent until then, hence `Option`). -/
structure TorrentRec where
  id : String
  name : String
  size : ℤ
  progress : ℚ
  download_rate : ℚ
  upload_rate : ℚ
  eta : Option String
  status : String
  created_at : ℤ
  completed_at : Option ℤ
  file_path : Option String
  download_speed_limit : Option ℤ
  upload_speed_limit : Option ℤ
  scheduled_start : Option ℤ
  num_peers : Option ℤ
  num_seeds : Option ℤ
  error : Option String
  deriving DecidableEq, Repr

/-- The mutable module-level state of `server.py`: `torrent_handles`,
`download_stats`, the `db.torrents` collection, the libtorrent session
(handle to paused-flag) and `websocket_connections`. -/
structure ServerState where
  torrent_handles : List (String × Nat)
  download_stats : List (String × TStats)
  dbTorrents : List TorrentRec
  sessionTorrents : List (Nat × Bool)
  websocket_connections : List Nat
  deriving DecidableEq, Repr

/-- Dict assignment `d[k] = v`: replace the first entry with key `k` in
place, or append when absent. -/
def setKey {κ α : Type} [BEq κ] : List (κ × α) → κ → α → List (κ × α)
  | [], k, v => [(k, v)]
  | (k0, v0) :: rest, k, v =>
      if k0 == k then (k, v) :: rest else (k0, v0) :: setKey rest k v

/-- Dict deletion `del d[k]`: drop the entries with key `k`. -/
def delKey {κ α : Type} [BEq κ] (d : List (κ × α)) (k : κ) : List (κ × α) :=
  d.filter (fun p => !(p.1 == k))

/-- `db.torrents.update_one(filter id, set)`: rewrite the first matching
record. -/
def updateRec (f : TorrentRec → TorrentRec) (tid : String) :
    List TorrentRec → List TorrentRec
  | [] => []
  | r :: rest =>
      if r.id == tid then f r :: rest else r :: updateRec f tid rest

/-- `db.torrents.delete_one(filter id)`: remove the first matching
record. -/
def deleteOneRec (tid : String) : List TorrentRec → List TorrentRec
  | [] => []
  | r :: rest => if r.id == tid then rest else r :: deleteOneRec tid rest

/-- The first durable record with the given id. -/
def findRec (db : List TorrentRec) (tid : String) : Option TorrentRec :=
  db.find? (fun r => r.id == tid)

/-- Python `int()` truncation toward zero of a rational. -/
def pyInt (q : ℚ) : ℤ := q.num / (q.den : ℤ)

/-- `str(timedelta(seconds=s))`: rendered duration.  The exact textual form
of a timedelta is irrelevant to every claim, so the second count is rendered
directly; only that distinct second counts give some string matters. -/
def etaString (s : ℤ) : String := toString s

/-- The stats dict built for one handle in `monitor_torrents`
(lines 125-149), `eta` included: `Unknown` when the download rate is not
positive, else the truncated `(total_wanted - total_download) /
download_rate` seconds. -/
def buildStats (eng : Engine) (h : Nat) : TStats :=
  let st := eng.status h
  { progress := st.progress * 100
    download_rate := st.download_rate
    upload_rate := st.upload_rate
    state := st.state
    total_download := st.total_download
    total_upload := st.total_upload
    num_peers := st.num_peers
    num_seeds := st.num_seeds
    error := if st.error ≠ "" then some st.error else none
    eta :=
      if 0 < st.download_rate then
        etaString (pyInt ((st.total_wanted - st.total_download) / st.download_rate))
      else "Unknown" }

/-- The status derivation chain of `monitor_torrents` (lines 151-164):
start from `downloading`, then the if/elif ladder, first match wins. -/
def deriveStatus (st : EngineStatus) : String :=
  if st.is_seeding then "completed"
  else if st.paused then "paused"
  else if st.state = LtState.checking_files then "checking"
  else if st.state = LtState.downloading_metadata then "downloading_metadata"
  else if st.state = LtState.queued_for_checking then "queued"
  else if st.error ≠ "" then "error"
  else "downloading"

/-- The `$set` document of the first `update_one` in the monitor loop
(lines 167-179). -/
def applyMonitorSet (stats : TStats) (tstatus : String) (r : TorrentRec) :
    TorrentRec :=
  { r with
    progress := stats.progress
    download_rate := stats.download_rate
    upload_rate := stats.upload_rate
    status := tstatus
    eta := some stats.eta
    num_peers := some stats.num_peers
    num_seeds := some stats.num_seeds
    error := stats.error }

/-- One iteration of the `for torrent_id, handle in list(...)` body of
`monitor_torrents` (lines 116-197).  Returns the mutated state and `false`
when the `db.torrents.update_one` call for this id raises (`updFails`), in
which case the exception escapes to the `except` clause of the tick.  An
invalid handle deletes the registry entry and continues. -/
def processEntry (eng : Engine) (updFails : String → Bool) (now : ℤ)
    (st : ServerState) (entry : String × Nat) : ServerState × Bool :=
  let tid := entry.1
  let h := entry.2
  if !(eng.valid h) then
    ({ st with torrent_handles := delKey st.torrent_handles tid }, true)
  else
    let es := eng.status h
    let stats := buildStats eng h
    let st1 := { st with download_stats := setKey st.download_stats tid stats }
    if updFails tid then (st1, false)
    else
      let tstatus := deriveStatus es
      let st2 := { st1 with
        dbTorrents := updateRec (applyMonitorSet stats tstatus) tid st1.dbTorrents }
      let st3 :=
        if es.is_seeding ∧ 100 ≤ stats.progress then
          { st2 with
            dbTorrents := updateRec
              (fun r => { r with status := "completed", completed_at := some now })
              tid st2.dbTorrents }
        else st2
      (st3, true)

/-- The whole `for` loop over the snapshot `list(torrent_handles.items())`:
processes entries in order; an entry whose processing raises stops the loop
(the exception propagates past the remaining entries), keeping the
mutations already made. -/
def processEntries (eng : Engine) (updFails : String → Bool) (now : ℤ) :
    ServerState → List (String × Nat) → ServerState × Bool
  | st, [] => (st, true)
  | st, e :: rest =>
      let r := processEntry eng updFails now st e
      if r.2 then processEntries eng updFails now r.1 rest else (r.1, false)

/-- The websocket message pushed each tick:
`{"type": "torrent_update", "stats": download_stats}`. -/
structure UpdateMsg where
  type : String
  stats : List (String × TStats)
  deriving DecidableEq, Repr

/-- The send loop of the broadcast step (lines 205-210): in iteration
order, a websocket whose `send_text` succeeds receives the message, a
failing one is collected into `disconnected`.  Returns
(delivered, disconnected). -/
def collectDelivery (sendOk : Nat → Bool) : List Nat → List Nat × List Nat
  | [] => ([], [])
  | ws :: rest =>
      let r := collectDelivery sendOk rest
      if sendOk ws then (ws :: r.1, r.2) else (r.1, ws :: r.2)

/-- `for ws in disconnected: websocket_connections.remove(ws)`
(lines 213-214): erase the first occurrence of each collected websocket. -/
def removeAll (conns : List Nat) (dis : List Nat) : List Nat :=
  dis.foldl (fun acc ws => acc.erase ws) conns

/-- One `publish`: deliver the message to every current websocket
best-effort, then prune the failed ones.  Returns the surviving connection
list and the performed deliveries.  The function is total: a failing
subscriber never makes publish itself fail. -/
def publishUpdate (sendOk : Nat → Bool) (msg : UpdateMsg) (conns : List Nat) :
    List Nat × List (Nat × UpdateMsg) :=
  let dc := collectDelivery sendOk conns
  (removeAll conns dc.2, dc.1.map (fun ws => (ws, msg)))

/-- The broadcast step of one tick (lines 199-214): only runs when
`websocket_connections` is non-empty; the message carries the current
`download_stats` map. -/
def broadcastStep (sendOk : Nat → Bool) (st : ServerState) :
    ServerState × List (Nat × UpdateMsg) :=
  if st.websocket_connections = [] then (st, [])
  else
    let msg : UpdateMsg := { type := "torrent_update", stats := st.download_stats }
    let r := publishUpdate sendOk msg st.websocket_connections
    ({ st with websocket_connections := r.1 }, r.2)

/-- One full tick of `monitor_torrents` (lines 114-220 of one `while`
iteration): iterate the registry snapshot, then broadcast.  The second
component is `false` when an exception escaped to the `except` clause (the
tick was aborted: remaining entries unprocessed, no broadcast, 5s backoff);
the third component lists the deliveries made this tick. -/
def monitorTick (eng : Engine) (updFails : String → Bool) (sendOk : Nat → Bool)
    (now : ℤ) (st : ServerState) : ServerState × Bool × List (Nat × UpdateMsg) :=
  let r := processEntries eng updFails now st st.torrent_handles
  if r.2 then
    let b := broadcastStep sendOk r.1
    (b.1, true, b.2)
  else (r.1, false, [])

/-- The params dict handed to `add_torrent_to_session` by `upload_torrent`.
Note `upload_torrent` (lines 309-312) puts only the two speed limits in it;
it has no `scheduled_start` key. -/
structure AddParams where
  download_speed_limit : Option ℤ
  upload_speed_limit : Option ℤ
  scheduled_start : Option ℤ
  deriving DecidableEq, Repr

/-- `add_torrent_to_session` (lines 239-275): parse the metadata, add the
torrent to the session (initially unpaused), pause it when
the scheduled_start entry of the params dict is a future timestamp,
register the handle.
Any exception (`parseOk`/`engineOk` false) is caught and returns `false`.
Speed limits and the forced reannounce touch no modelled state. -/
def addTorrentToSession (parseOk engineOk : Bool) (newHandle : Nat)
    (torrent_id : String) (params : AddParams) (now : ℤ) (st : ServerState) :
    ServerState × Bool :=
  if !parseOk then (st, false)
  else if !engineOk then (st, false)
  else
    let pausedFlag :=
      match params.scheduled_start with
      | some t => decide (now < t)
      | none => false
    let st1 := { st with
      sessionTorrents := st.sessionTorrents ++ [(newHandle, pausedFlag)] }
    ({ st1 with torrent_handles := setKey st1.torrent_handles torrent_id newHandle },
     true)

/-- `upload_torrent` (lines 278-325).  `filename` is the uploaded filename,
`tname`/`tsize` are `info.name()`/`info.total_size()`, `parseOk` is whether
`lt.torrent_info(torrent_data)` parses, `newId` the generated uuid,
`newHandle` the engine handle an eventual `ses.add_torrent` yields, `now`
the creation timestamp.  The endpoint takes only the two speed limits as
query parameters; a client-sent scheduled_start is not part of the
signature and is dropped by FastAPI, and the params dict built at lines
309-312 carries no scheduled_start key. -/
def uploadTorrent (filename tname : String) (tsize : ℤ)
    (parseOk engineOk : Bool) (dl ul : Option ℤ) (newId : String)
    (newHandle : Nat) (now : ℤ) (st : ServerState) :
    ServerState × Except ℕ TorrentRec :=
  if !(filename.endsWith ".torrent") then (st, .error 400)
  else if !parseOk then (st, .error 500)
  else
    let rec0 : TorrentRec :=
      { id := newId, name := tname, size := tsize, progress := 0
        download_rate := 0, upload_rate := 0, eta := none, status := "queued"
        created_at := now, completed_at := none, file_path := none
        download_speed_limit := dl, upload_speed_limit := ul
        scheduled_start := none, num_peers := none, num_seeds := none
        error := none }
    let st1 := { st with dbTorrents := st.dbTorrents ++ [rec0] }
    let params : AddParams :=
      { download_speed_limit := dl, upload_speed_limit := ul, scheduled_start := none }
    let r := addTorrentToSession parseOk engineOk newHandle newId params now st1
    if !r.2 then (r.1, .error 500) else (r.1, .ok rec0)

/-- Set the paused flag of a session torrent (`handle.pause()`). -/
def setPausedFlag (sess : List (Nat × Bool)) (h : Nat) (b : Bool) :
    List (Nat × Bool) :=
  setKey sess h b

/-- `pause_torrent` (lines 332-345): 404 when the id is not in
`torrent_handles` (nothing else happens), else pause the handle and
optimistically set the durable status to `paused`. -/
def pauseTorrent (tid : String) (st : ServerState) :
    ServerState × Except ℕ String :=
  match st.torrent_handles.lookup tid with
  | none => (st, .error 404)
  | some h =>
      let st1 := { st with sessionTorrents := setPausedFlag st.sessionTorrents h true }
      let st2 := { st1 with
        dbTorrents := updateRec (fun r => { r with status := "paused" }) tid st1.dbTorrents }
      (st2, .ok "Torrent paused")

/-- `delete_torrent` (lines 362-373): when the id is registered, remove the
torrent from the session, drop the registry entry and (when present) the
stats entry; in every case delete the durable record. -/
def deleteTorrent (tid : String) (st : ServerState) : ServerState × String :=
  let st1 :=
    match st.torrent_handles.lookup tid with
    | some h =>
        let sA := { st with
          sessionTorrents := delKey st.sessionTorrents h
          torrent_handles := delKey st.torrent_handles tid }
        if (sA.download_stats.lookup tid).isSome then
          { sA with download_stats := delKey sA.download_stats tid }
        else sA
    | none => st
  ({ st1 with dbTorrents := deleteOneRec tid st1.dbTorrents }, "Torrent deleted")

/-- The global download rate: the sum of the download_rate fields over all
entries of download_stats (line 416). -/
def globalDownloadRate (stats : List (String × TStats)) : ℚ :=
  (stats.map (fun p => p.2.download_rate)).sum

/-- The global upload rate: the sum of the upload_rate fields over all
entries of download_stats (line 417). -/
def globalUploadRate (stats : List (String × TStats)) : ℚ :=
  (stats.map (fun p => p.2.upload_rate)).sum

/-- Decidable equality for `Except`, needed to evaluate endpoint results on
concrete inputs. -/
def exceptDecEq {ε α : Type} [DecidableEq ε] [DecidableEq α] :
    DecidableEq (Except ε α) := fun a b =>
  match a, b with
  | .error e1, .error e2 =>
      if h : e1 = e2 then isTrue (by rw [h]) else isFalse (by simp [h])
  | .error _, .ok _ => isFalse (by simp)
  | .ok _, .error _ => isFalse (by simp)
  | .ok v1, .ok v2 =>
      if h : v1 = v2 then isTrue (by rw [h]) else isFalse (by simp [h])

instance {ε α : Type} [DecidableEq ε] [DecidableEq α] : DecidableEq (Except ε α) :=
  exceptDecEq

/-- First-match evaluation of a priority rule list; the fallthrough result
is `downloading`. -/
def firstMatch : List (Bool × String) → String
  | [] => "downloading"
  | (b, s) :: rest => if b then s else firstMatch rest

/-- The priority rules of the specification (section 4.3), in the stated
order: fully available, paused flag, checking-files, downloading-metadata,
queued-for-checking, non-empty error string. -/
def statusRules (st : EngineStatus) : List (Bool × String) :=
  [(st.is_seeding, "completed"),
   (st.paused, "paused"),
   (st.state == LtState.checking_files, "checking"),
   (st.state == LtState.downloading_metadata, "downloading_metadata"),
   (st.state == LtState.queued_for_checking, "queued"),
   (!(st.error == ""), "error")]

/-- Status derivation as the specification words it: the priority list
evaluated first-match-first.  Compared against `deriveStatus`, which is the
transcription of the code. -/
def deriveStatusSpec (st : EngineStatus) : String := firstMatch (statusRules st)

/-- A fresh durable record as `upload_torrent` inserts it (status queued,
no completion timestamp), used to build concrete states. -/
def baseRec (tid : String) : TorrentRec :=
  { id := tid, name := "A", size := 100, progress := 0, download_rate := 0
    upload_rate := 0, eta := none, status := "queued", created_at := 0
    completed_at := none, file_path := none, download_speed_limit := none
    upload_speed_limit := none, scheduled_start := none, num_peers := none
    num_seeds := none, error := none }

/-- Engine snapshot of a fully available (seeding) torrent. -/
def esSeed : EngineStatus :=
  { progress := 1, download_rate := 0, upload_rate := 0, state := .seeding
    total_download := 100, total_upload := 0, num_peers := 0, num_seeds := 1
    error := "", is_seeding := true, paused := false, total_wanted := 100 }

/-- Engine snapshot of a plain downloading torrent at the given fraction. -/
def esDown (p : ℚ) : EngineStatus :=
  { progress := p, download_rate := 10, upload_rate := 1, state := .downloading
    total_download := p * 100, total_upload := 0, num_peers := 3, num_seeds := 2
    error := "", is_seeding := false, paused := false, total_wanted := 100 }

/-- Engine snapshot that reports a non-empty error string and full
availability at the same time. -/
def esErrSeed : EngineStatus :=
  { esSeed with error := "tracker failure" }

/-- Engine for the completion-timestamp scenario: every handle valid and
seeding. -/
def engC1 : Engine := { valid := fun _ => true, status := fun _ => esSeed }

/-- State with the single registered transfer `t1`. -/
def stC1 : ServerState :=
  { torrent_handles := [("t1", 1)], download_stats := [], dbTorrents := [baseRec "t1"]
    sessionTorrents := [(1, false)], websocket_connections := [] }

/-- Engine for the failure-isolation scenario: both handles valid and
downloading. -/
def engC2 : Engine :=
  { valid := fun _ => true
    status := fun h => if h == 2 then esDown (1/2) else esDown (1/4) }

/-- Failure oracle that makes the durable update of transfer `a` raise. -/
def failsA : String → Bool := fun tid => tid == "a"

/-- State with the two registered transfers `a` and `b`. -/
def stC2 : ServerState :=
  { torrent_handles := [("a", 1), ("b", 2)]
    download_stats := []
    dbTorrents := [baseRec "a", baseRec "b"]
    sessionTorrents := [(1, false), (2, false)]
    websocket_connections := [] }

/-- The empty module state (fresh process). -/
def st0 : ServerState :=
  { torrent_handles := [], download_stats := [], dbTorrents := []
    sessionTorrents := [], websocket_connections := [] }

/-- Engine for the invalid-handle scenario: handle 1 invalid, all others
valid and downloading. -/
def engC4 : Engine :=
  { valid := fun h => !(h == 1), status := fun _ => esDown (1/2) }

/-- A stale stats entry left from an earlier tick. -/
def statsA0 : TStats :=
  { progress := 30, download_rate := 5, upload_rate := 1, state := .downloading
    total_download := 30, total_upload := 2, num_peers := 4, num_seeds := 1
    error := none, eta := "14" }

/-- A second distinct stats entry. -/
def statsY0 : TStats :=
  { statsA0 with download_rate := 7, upload_rate := 3 }

/-- State with transfers `a` (handle 1, invalid in `engC4`) and `b`
(handle 2, valid), a stale stats entry for `a` and one websocket. -/
def stC4 : ServerState :=
  { torrent_handles := [("a", 1), ("b", 2)]
    download_stats := [("a", statsA0)]
    dbTorrents := [baseRec "a", baseRec "b"]
    sessionTorrents := [(1, false), (2, false)]
    websocket_connections := [9] }

/-- State with the registered transfer `p` and the orphan record `q` (in
the store, not in the registry). -/
def stC7 : ServerState :=
  { torrent_handles := [("p", 3)]
    download_stats := [("p", statsA0)]
    dbTorrents := [baseRec "p", baseRec "q"]
    sessionTorrents := [(3, false)]
    websocket_connections := [] }

/-- State with one durable record and an empty registry. -/
def stC8 : ServerState :=
  { torrent_handles := [], download_stats := [], dbTorrents := [baseRec "r"]
    sessionTorrents := [], websocket_connections := [] }

/-- A broadcast message fixture. -/
def msg9 : UpdateMsg := { type := "torrent_update", stats := [("x", statsA0)] }

/-- Delivery oracle that fails exactly for subscriber 2. -/
def sendOk9 : Nat → Bool := fun ws => !(ws == 2)

/-- State with two registered transfers and live stats for both. -/
def stC10 : ServerState :=
  { torrent_handles := [("x", 5), ("y", 6)]
    download_stats := [("x", statsA0), ("y", statsY0)]
    dbTorrents := [baseRec "x", baseRec "y"]
    sessionTorrents := [(5, false), (6, false)]
    websocket_connections := [] }

/-- Looking up a deleted key yields nothing. -/
theorem lookup_delKey_self {κ α : Type} [BEq κ] [LawfulBEq κ]
    (d : List (κ × α)) (k : κ) : (delKey d k).lookup k = none := by
  induction d with
  | nil => rfl
  | cons p rest ih =>
      rcases p with ⟨k0, v0⟩
      by_cases h : k0 = k
      · simpa [delKey, List.filter_cons, h] using ih
      · have hk : (k == k0) = false := beq_eq_false_iff_ne.mpr (Ne.symm h)
        have hk0 : (k0 == k) = false := beq_eq_false_iff_ne.mpr h
        simpa [delKey, List.filter_cons, hk0, List.lookup, hk] using ih

/-- Deleting an absent key changes nothing. -/
theorem delKey_eq_self_of_lookup_none {κ α : Type} [BEq κ] [LawfulBEq κ]
    (d : List (κ × α)) (k : κ) (h : d.lookup k = none) : delKey d k = d := by
  induction d with
  | nil => rfl
  | cons p rest ih =>
      rcases p with ⟨k0, v0⟩
      by_cases hk : k = k0
      · simp [List.lookup, hk] at h
      · have hk1 : (k == k0) = false := beq_eq_false_iff_ne.mpr hk
        have hk0 : (k0 == k) = false := beq_eq_false_iff_ne.mpr (Ne.symm hk)
        have hrest : rest.lookup k = none := by simpa [List.lookup, hk1] using h
        have hcons : delKey ((k0, v0) :: rest) k = (k0, v0) :: delKey rest k := by
          simp [delKey, List.filter_cons, hk0]
        rw [hcons, ih hrest]

/-- `update_one` rewrites exactly the first record a lookup sees, provided
the rewrite keeps the id. -/
theorem findRec_updateRec (f : TorrentRec → TorrentRec) (tid : String)
    (hf : ∀ r, r.id = tid → (f r).id = tid) (db : List TorrentRec) :
    findRec (updateRec f tid db) tid = (findRec db tid).map f := by
  induction db with
  | nil => rfl
  | cons r rest ih =>
      by_cases h : r.id = tid
      · have h1 : (r.id == tid) = true := beq_iff_eq.mpr h
        have h2 : ((f r).id == tid) = true := beq_iff_eq.mpr (hf r h)
        simp [findRec, updateRec, h1, List.find?_cons_of_pos, h2]
      · have h1 : (r.id == tid) = false := beq_eq_false_iff_ne.mpr h
        simpa [findRec, updateRec, h1, List.find?_cons_of_neg] using ih

/-- No record with the given id survives a filter when the id is absent. -/
theorem filter_id_eq_nil_of_not_mem (tid : String) (db : List TorrentRec)
    (h : tid ∉ db.map TorrentRec.id) :
    db.filter (fun r => r.id == tid) = [] := by
  rw [List.filter_eq_nil_iff]
  intro r hr
  simp only [beq_iff_eq]
  intro he
  exact h (by simpa [he] using List.mem_map_of_mem TorrentRec.id hr)

/-- With distinct ids, `delete_one` leaves no record carrying the deleted
id. -/
theorem deleteOneRec_removes_all (tid : String) (db : List TorrentRec)
    (hnd : (db.map TorrentRec.id).Nodup) :
    (deleteOneRec tid db).filter (fun r => r.id == tid) = [] := by
  induction db with
  | nil => rfl
  | cons r rest ih =>
      rw [List.map_cons, List.nodup_cons] at hnd
      obtain ⟨hni, hrest⟩ := hnd
      by_cases h : r.id = tid
      · simp only [deleteOneRec, beq_iff_eq.mpr h, if_true]
        exact filter_id_eq_nil_of_not_mem tid rest (h ▸ hni)
      · have h1 : (r.id == tid) = false := beq_eq_false_iff_ne.mpr h
        have hcons : deleteOneRec tid (r :: rest) = r :: deleteOneRec tid rest := by
          simp [deleteOneRec, h1]
        rw [hcons, List.filter_cons]
        simp only [h1, Bool.false_eq_true, if_false]
        exact ih hrest

/-- The send loop delivers to exactly the subscribers whose send
succeeds. -/
theorem collectDelivery_fst (sendOk : Nat → Bool) (conns : List Nat) :
    (collectDelivery sendOk conns).1 = conns.filter sendOk := by
  induction conns with
  | nil => rfl
  | cons ws rest ih =>
      cases h : sendOk ws <;> simp [collectDelivery, List.filter_cons, h, ih]

/-- The send loop collects exactly the subscribers whose send fails. -/
theorem collectDelivery_snd (sendOk : Nat → Bool) (conns : List Nat) :
    (collectDelivery sendOk conns).2 = conns.filter (fun ws => !(sendOk ws)) := by
  induction conns with
  | nil => rfl
  | cons ws rest ih =>
      cases h : sendOk ws <;> simp [collectDelivery, List.filter_cons, h, ih]

/-- Erasing each element of a list in turn, on a duplicate-free list, is a
filter. -/
theorem removeAll_eq_filter (dis : List Nat) (conns : List Nat) (hnd : conns.Nodup) :
    removeAll conns dis = conns.filter (fun ws => !(dis.contains ws)) := by
  induction dis generalizing conns with
  | nil => simp [removeAll]
  | cons d ds ih =>
      have step : removeAll conns (d :: ds) = removeAll (conns.erase d) ds := rfl
      rw [step, ih (conns.erase d) (hnd.erase d), hnd.erase_eq_filter d,
        List.filter_filter]
      congr 1
      funext ws
      by_cases hw : ws = d <;> simp [hw, List.contains_cons, Bool.and_comm]

/-- Claim C5: the normalized status is derived by the fixed priority order
with first match winning (fully available, paused, checking-files,
downloading-metadata, queued-for-checking, non-empty error, else
downloading); in particular with a non-empty error string and full
availability at once, completed wins. -/
theorem C5_status_priority (st : EngineStatus) :
    deriveStatus st = deriveStatusSpec st ∧
    (st.error ≠ "" → st.is_seeding = true → deriveStatus st = "completed") := by
  constructor
  · rcases st with ⟨p, dr, ur, s, td, tu, np, ns, e, seed, pau, tw⟩
    cases seed <;> cases pau <;> cases s <;> by_cases he : e = "" <;>
      simp [deriveStatus, deriveStatusSpec, statusRules, firstMatch, he]
  · intro _ hs
    simp [deriveStatus, hs]

/-- Witness for C5 at a snapshot that is seeding and carries a tracker
error at the same time. -/
theorem C5_status_priority_witness :
    deriveStatus esErrSeed = deriveStatusSpec esErrSeed ∧
    deriveStatus esErrSeed = "completed" :=
  ⟨(C5_status_priority esErrSeed).1,
   (C5_status_priority esErrSeed).2 (by decide) (by decide)⟩

/-- Claim C8: pausing an id absent from the registry returns 404 and the
whole module state, the durable store included, is unchanged. -/
theorem C8_pause_not_found (st : ServerState) (tid : String)
    (habs : st.torrent_handles.lookup tid = none) :
    pauseTorrent tid st = (st, .error 404) := by
  simp [pauseTorrent, habs]

/-- Witness for C8: pausing a ghost id on a state with one durable record
and an empty registry. -/
theorem C8_pause_not_found_witness :
    pauseTorrent "ghost" stC8 = (stC8, .error 404) :=
  C8_pause_not_found stC8 "ghost" rfl

/-- Counterexample to claim C6 as stated: a well-named upload whose content
does not parse is rejected with status 500 by the generic exception
handler, not with a 400-equivalent InvalidMetadata error. -/
theorem C6_counterexample :
    (uploadTorrent "badfile.torrent" "X" 0 false true none none "id6" 2 0 st0).2 =
      .error 500 ∧ (500 : ℕ) ≠ 400 := by with_unfolding_all decide

/-- Claim C6 amended: a create whose filename passes the extension check
but whose content is unparseable fails with a 500-equivalent error and
leaves the whole state, the durable store included, untouched; only the
filename extension check yields 400. -/
theorem C6_unparseable_500 (filename tname : String) (tsize : ℤ)
    (engineOk : Bool) (dl ul : Option ℤ) (newId : String) (newHandle : Nat)
    (now : ℤ) (st : ServerState)
    (hext : filename.endsWith ".torrent" = true) :
    uploadTorrent filename tname tsize false engineOk dl ul newId newHandle now st =
      (st, .error 500) := by
  simp [uploadTorrent, hext]

/-- Witness for the amended C6. -/
theorem C6_unparseable_500_witness :
    uploadTorrent "bad.torrent" "X" 0 false true none none "id6" 1 0 st0 =
      (st0, .error 500) :=
  C6_unparseable_500 "bad.torrent" "X" 0 true none none "id6" 1 0 st0
    (by with_unfolding_all decide)

/-- Counterexample to claim C1 as stated: with the engine reporting fully
available on consecutive ticks, the first tick (time 100) stores
completed_at = 100 and the next tick (time 200) overwrites it with 200, so
the stored value is not identical across post-transition reads. -/
theorem C1_counterexample :
    ((monitorTick engC1 (fun _ => false) (fun _ => true) 100 stC1).1.dbTorrents.map
        (fun r => r.completed_at)) = [some 100] ∧
    ((monitorTick engC1 (fun _ => false) (fun _ => true) 200
        (monitorTick engC1 (fun _ => false) (fun _ => true) 100 stC1).1).1.dbTorrents.map
        (fun r => r.completed_at)) = [some 200] := by with_unfolding_all decide

/-- Claim C1 amended: completed_at is set to the tick time on every tick
whose snapshot reports seeding with progress at least 100 percent,
independent of the previously stored value or status, so it is overwritten
on each such tick rather than set exactly once. -/
theorem C1_per_tick_overwrite (eng : Engine) (updFails : String → Bool)
    (now : ℤ) (st : ServerState) (tid : String) (h : Nat)
    (hv : eng.valid h = true) (hs : (eng.status h).is_seeding = true)
    (hp : (100 : ℚ) ≤ (eng.status h).progress * 100)
    (hf : updFails tid = false) :
    findRec (processEntry eng updFails now st (tid, h)).1.dbTorrents tid =
      (findRec st.dbTorrents tid).map (fun r =>
        { applyMonitorSet (buildStats eng h) (deriveStatus (eng.status h)) r with
          status := "completed", completed_at := some now }) := by
  have hcond : (eng.status h).is_seeding ∧ (100 : ℚ) ≤ (buildStats eng h).progress :=
    ⟨by simp [hs], by simpa [buildStats] using hp⟩
  simp only [processEntry, hv, Bool.not_true, Bool.false_eq_true, if_false, hf,
    if_pos hcond]
  rw [findRec_updateRec
        (fun r => { r with status := "completed", completed_at := some now }) tid
        (fun r hr => hr),
      findRec_updateRec
        (applyMonitorSet (buildStats eng h) (deriveStatus (eng.status h))) tid
        (fun r hr => hr)]
  cases findRec st.dbTorrents tid <;> rfl

/-- Witness for the amended C1 at a concrete seeding state. -/
theorem C1_per_tick_overwrite_witness :
    findRec (processEntry engC1 (fun _ => false) 300 stC1 ("t1", 1)).1.dbTorrents "t1" =
      (findRec stC1.dbTorrents "t1").map (fun r =>
        { applyMonitorSet (buildStats engC1 1) (deriveStatus (engC1.status 1)) r with
          status := "completed", completed_at := some 300 }) :=
  C1_per_tick_overwrite engC1 (fun _ => false) 300 stC1 "t1" 1 rfl rfl
    (by with_unfolding_all decide) rfl

/-- Counterexample to claim C2 as stated: two registered transfers, the
durable update of `a` raises; `b` is valid and failure-free yet its durable
record is not updated in that tick, because the exception aborts the whole
loop. -/
theorem C2_counterexample :
    (monitorTick engC2 failsA (fun _ => true) 50 stC2).2.1 = false ∧
    engC2.valid 2 = true ∧ failsA "b" = false ∧
    ((monitorTick engC2 failsA (fun _ => true) 50 stC2).1.dbTorrents.map
        (fun r => (r.id, r.progress, r.status))) =
      [("a", 0, "queued"), ("b", 0, "queued")] := by with_unfolding_all decide

/-- Claim C2 amended: a failure in the persist step of the first transfer
of the snapshot aborts the remaining transfers of that tick and skips the
broadcast; the exception is caught at tick level (monitor loop logs and
backs off, then continues with the next tick).  Only the stats-map
assignment made before the failing update survives. -/
theorem C2_tick_abort (eng : Engine) (updFails : String → Bool)
    (sendOk : Nat → Bool) (now : ℤ) (st : ServerState) (tid : String) (h : Nat)
    (rest : List (String × Nat))
    (hreg : st.torrent_handles = (tid, h) :: rest)
    (hv : eng.valid h = true) (hf : updFails tid = true) :
    monitorTick eng updFails sendOk now st =
      ({ st with download_stats := setKey st.download_stats tid (buildStats eng h) },
        false, []) := by
  simp [monitorTick, hreg, processEntries, processEntry, hv, hf]

/-- Witness for the amended C2 at the two-transfer state. -/
theorem C2_tick_abort_witness :
    monitorTick engC2 failsA (fun _ => true) 50 stC2 =
      ({ stC2 with download_stats := setKey stC2.download_stats "a" (buildStats engC2 1) },
        false, []) :=
  C2_tick_abort engC2 failsA (fun _ => true) 50 stC2 "a" 1 [("b", 2)] rfl rfl rfl

/-- Counterexample to claim C4 as stated: transfer `a` has an invalid
handle and is pruned from the registry in the first tick, yet the
broadcast of the subsequent tick still carries an entry for `a`, because the
stale `download_stats` entry is never removed. -/
theorem C4_counterexample :
    ((monitorTick engC4 (fun _ => false) (fun _ => true) 10 stC4).1.torrent_handles.lookup
        "a" = none) ∧
    (((monitorTick engC4 (fun _ => false) (fun _ => true) 20
        (monitorTick engC4 (fun _ => false) (fun _ => true) 10 stC4).1).2.2.map
        (fun d => (d.2.stats.lookup "a").isSome)) = [true]) := by
  with_unfolding_all decide

/-- Claim C4 amended: an invalid handle at the head of the tick snapshot
only deletes the registry entry; the durable record, the stats map and the
processing of every remaining entry are exactly as if the tick had started
without that entry — but since the stats entry is not pruned, the transfer
keeps appearing in subsequent broadcasts. -/
theorem C4_invalid_handle_prune (eng : Engine) (updFails : String → Bool)
    (now : ℤ) (st : ServerState) (tid : String) (h : Nat)
    (rest : List (String × Nat)) (hv : eng.valid h = false) :
    processEntries eng updFails now st ((tid, h) :: rest) =
      processEntries eng updFails now
        { st with torrent_handles := delKey st.torrent_handles tid } rest := by
  simp [processEntries, processEntry, hv]

/-- Witness for the amended C4 at the two-transfer state with one invalid
handle. -/
theorem C4_invalid_handle_prune_witness :
    processEntries engC4 (fun _ => false) 10 stC4 [("a", 1), ("b", 2)] =
      processEntries engC4 (fun _ => false) 10
        { stC4 with torrent_handles := delKey stC4.torrent_handles "a" } [("b", 2)] :=
  C4_invalid_handle_prune engC4 (fun _ => false) 10 stC4 "a" 1 [("b", 2)] rfl

/-- Claim C3, behavior of the code at the failing input: a create request
for a valid torrent at time 0 with a client-sent scheduled_start of 3600
(one hour in the future).  The endpoint signature has no scheduled_start
parameter and the params dict it builds carries none, so the engine-side
torrent ends up unpaused and the stored record has status queued — while
`add_torrent_to_session`, handed the same future scheduled_start directly,
does pause the torrent, showing the intended (dead) code path. -/
theorem C3_scheduled_start_dropped :
    ((uploadTorrent "a.torrent" "A" 1000 true true none none "id1" 7 0 st0).1.sessionTorrents
        = [(7, false)]) ∧
    ((uploadTorrent "a.torrent" "A" 1000 true true none none "id1" 7 0 st0).1.dbTorrents.map
        (fun r => r.status) = ["queued"]) ∧
    ((addTorrentToSession true true 7 "id1"
        { download_speed_limit := none, upload_speed_limit := none
          scheduled_start := some 3600 } 0 st0).1.sessionTorrents = [(7, true)]) := by
  with_unfolding_all decide

/-- Claim C7: delete always removes the durable record (ids are unique in
reachable stores, hence the Nodup hypothesis), succeeds with the same
message whether or not the id is registered (orphans included), removes
the registry entry, and removes the engine-side torrent when one was
registered. -/
theorem C7_delete_always_removes (st : ServerState) (tid : String)
    (hnd : (st.dbTorrents.map TorrentRec.id).Nodup) :
    ((deleteTorrent tid st).1.dbTorrents.filter (fun r => r.id == tid) = []) ∧
    ((deleteTorrent tid st).2 = "Torrent deleted") ∧
    ((deleteTorrent tid st).1.torrent_handles.lookup tid = none) ∧
    (∀ h, st.torrent_handles.lookup tid = some h →
      (deleteTorrent tid st).1.sessionTorrents.lookup h = none) := by
  cases hlk : st.torrent_handles.lookup tid with
  | none =>
      refine ⟨?_, rfl, ?_, ?_⟩
      · simp only [deleteTorrent, hlk]
        exact deleteOneRec_removes_all tid st.dbTorrents hnd
      · simp [deleteTorrent, hlk]
      · intro h hcontra
        cases hcontra
  | some h0 =>
      have hdb : (deleteTorrent tid st).1.dbTorrents = deleteOneRec tid st.dbTorrents := by
        by_cases hs : (st.download_stats.lookup tid).isSome <;>
          simp [deleteTorrent, hlk, hs]
      have hth : (deleteTorrent tid st).1.torrent_handles =
          delKey st.torrent_handles tid := by
        by_cases hs : (st.download_stats.lookup tid).isSome <;>
          simp [deleteTorrent, hlk, hs]
      have hsess : (deleteTorrent tid st).1.sessionTorrents =
          delKey st.sessionTorrents h0 := by
        by_cases hs : (st.download_stats.lookup tid).isSome <;>
          simp [deleteTorrent, hlk, hs]
      refine ⟨?_, rfl, ?_, ?_⟩
      · rw [hdb]
        exact deleteOneRec_removes_all tid st.dbTorrents hnd
      · rw [hth]
        exact lookup_delKey_self _ _
      · intro h hh
        injection hh with hh0
        subst hh0
        rw [hsess]
        exact lookup_delKey_self _ _

/-- Witness for C7: deleting the registered transfer `p` in a store that
also holds the orphan `q`. -/
theorem C7_delete_always_removes_witness :
    ((deleteTorrent "p" stC7).1.dbTorrents.filter (fun r => r.id == "p") = []) ∧
    ((deleteTorrent "p" stC7).2 = "Torrent deleted") ∧
    ((deleteTorrent "p" stC7).1.torrent_handles.lookup "p" = none) ∧
    ((deleteTorrent "p" stC7).1.sessionTorrents.lookup 3 = none) :=
  ⟨(C7_delete_always_removes stC7 "p" (by decide)).1,
   (C7_delete_always_removes stC7 "p" (by decide)).2.1,
   (C7_delete_always_removes stC7 "p" (by decide)).2.2.1,
   (C7_delete_always_removes stC7 "p" (by decide)).2.2.2 3 rfl⟩

/-- Claim C9: a publish delivers the same message to every subscriber whose
send succeeds even when other sends fail, every failing subscriber is gone
from the surviving set handed to the next publish, and every survivor is an
original subscriber whose send succeeded.  `publishUpdate` is a total
function, so publish itself never raises. -/
theorem C9_publish_isolation (sendOk : Nat → Bool) (msg : UpdateMsg)
    (conns : List Nat) (hnd : conns.Nodup) :
    (∀ ws ∈ conns, sendOk ws = true → (ws, msg) ∈ (publishUpdate sendOk msg conns).2) ∧
    (∀ ws, sendOk ws = false → ws ∉ (publishUpdate sendOk msg conns).1) ∧
    (∀ ws ∈ (publishUpdate sendOk msg conns).1, ws ∈ conns ∧ sendOk ws = true) := by
  have hsnd : (publishUpdate sendOk msg conns).2 =
      (conns.filter sendOk).map (fun ws => (ws, msg)) := by
    simp [publishUpdate, collectDelivery_fst]
  have hfst : (publishUpdate sendOk msg conns).1 =
      conns.filter
        (fun ws => !((conns.filter (fun w => !(sendOk w))).contains ws)) := by
    simp [publishUpdate, collectDelivery_snd, removeAll_eq_filter _ _ hnd]
  refine ⟨?_, ?_, ?_⟩
  · intro ws hmem hok
    rw [hsnd]
    exact List.mem_map_of_mem _ (List.mem_filter.mpr ⟨hmem, hok⟩)
  · intro ws hfail hcontra
    rw [hfst] at hcontra
    obtain ⟨hmem, hpred⟩ := List.mem_filter.mp hcontra
    have hin : (conns.filter (fun w => !(sendOk w))).contains ws = true :=
      List.elem_iff.mpr (List.mem_filter.mpr ⟨hmem, by simp [hfail]⟩)
    rw [hin] at hpred
    simp at hpred
  · intro ws hmem
    rw [hfst] at hmem
    obtain ⟨hmem2, hpred⟩ := List.mem_filter.mp hmem
    refine ⟨hmem2, ?_⟩
    cases hx : sendOk ws with
    | true => rfl
    | false =>
        have hin : (conns.filter (fun w => !(sendOk w))).contains ws = true :=
          List.elem_iff.mpr (List.mem_filter.mpr ⟨hmem2, by simp [hx]⟩)
        rw [hin] at hpred
        simp at hpred

/-- Witness for C9: three subscribers, delivery to subscriber 2 fails. -/
theorem C9_publish_isolation_witness :
    ((1, msg9) ∈ (publishUpdate sendOk9 msg9 [1, 2, 3]).2) ∧
    (2 ∉ (publishUpdate sendOk9 msg9 [1, 2, 3]).1) ∧
    (3 ∈ [1, 2, 3] ∧ sendOk9 3 = true) :=
  ⟨(C9_publish_isolation sendOk9 msg9 [1, 2, 3] (by decide)).1 1 (by decide) rfl,
   (C9_publish_isolation sendOk9 msg9 [1, 2, 3] (by decide)).2.1 2 rfl,
   (C9_publish_isolation sendOk9 msg9 [1, 2, 3] (by decide)).2.2 3
     (by with_unfolding_all decide)⟩

/-- Claim C10: deleting a registered transfer removes its entry from both
in-memory maps; the surviving stats map is exactly the old one with the id
filtered out, so the global download and upload rate sums range only over
the other transfers, and the id is absent from later broadcast sources. -/
theorem C10_delete_prunes_rates (st : ServerState) (tid : String) (h : Nat)
    (hreg : st.torrent_handles.lookup tid = some h) :
    ((deleteTorrent tid st).1.torrent_handles.lookup tid = none) ∧
    ((deleteTorrent tid st).1.download_stats.lookup tid = none) ∧
    ((deleteTorrent tid st).1.download_stats = delKey st.download_stats tid) ∧
    (globalDownloadRate (deleteTorrent tid st).1.download_stats =
      globalDownloadRate (delKey st.download_stats tid)) ∧
    (globalUploadRate (deleteTorrent tid st).1.download_stats =
      globalUploadRate (delKey st.download_stats tid)) := by
  have hth : (deleteTorrent tid st).1.torrent_handles =
      delKey st.torrent_handles tid := by
    by_cases hs : (st.download_stats.lookup tid).isSome <;>
      simp [deleteTorrent, hreg, hs]
  have hds : (deleteTorrent tid st).1.download_stats =
      delKey st.download_stats tid := by
    by_cases hs : (st.download_stats.lookup tid).isSome
    · simp [deleteTorrent, hreg, hs]
    · have hnone : st.download_stats.lookup tid = none := by
        cases hx : st.download_stats.lookup tid with
        | none => rfl
        | some v => rw [hx] at hs; simp at hs
      simp [deleteTorrent, hreg, hs, delKey_eq_self_of_lookup_none _ _ hnone]
  refine ⟨?_, ?_, hds, by rw [hds], by rw [hds]⟩
  · rw [hth]
    exact lookup_delKey_self _ _
  · rw [hds]
    exact lookup_delKey_self _ _

/-- Witness for C10: deleting `x` from the two-transfer state with live
stats for both transfers. -/
theorem C10_delete_prunes_rates_witness :
    ((deleteTorrent "x" stC10).1.torrent_handles.lookup "x" = none) ∧
    ((deleteTorrent "x" stC10).1.download_stats.lookup "x" = none) ∧
    ((deleteTorrent "x" stC10).1.download_stats = delKey stC10.download_stats "x") ∧
    (globalDownloadRate (deleteTorrent "x" stC10).1.download_stats =
      globalDownloadRate (delKey stC10.download_stats "x")) ∧
    (globalUploadRate (deleteTorrent "x" stC10).1.download_stats =
      globalUploadRate (delKey stC10.download_stats "x")) :=
  C10_delete_prunes_rates stC10 "x" 5 rfl
